import Mathlib

/-!
Shallow embedding of `src/ArticleGenerator1.py`: the date-filtered transcript
aggregator, the report pipeline driver (agent/task construction and the
combined-content guard), the configuration store, and the Word-document
formatter, together with theorems settling the specification claims.
-/

namespace ArticleGen

/-- A calendar date as produced by Python's `datetime.date`. -/
structure PyDate where
  y : Nat
  m : Nat
  d : Nat
deriving DecidableEq, Repr

/-- Python `date` comparison `a <= b`: lexicographic on (year, month, day). -/
def dateLe (a b : PyDate) : Prop :=
  a.y < b.y ∨ (a.y = b.y ∧ (a.m < b.m ∨ (a.m = b.m ∧ a.d ≤ b.d)))

instance (a b : PyDate) : Decidable (dateLe a b) := by
  unfold dateLe; infer_instance

theorem dateLe_refl (a : PyDate) : dateLe a a := by unfold dateLe; omega

theorem dateLe_trans {a b c : PyDate} (h1 : dateLe a b) (h2 : dateLe b c) :
    dateLe a c := by
  unfold dateLe at *; omega

/-- Numeric value of a decimal digit character. -/
def digitVal (c : Char) : Nat := c.toNat - 48

/-- Whether `c` is an ASCII decimal digit (as in Python's `\d`). -/
def isDig (c : Char) : Bool := 48 ≤ c.toNat && c.toNat ≤ 57

/-- Whether `c` is in `[1-9]`. -/
def isDig19 (c : Char) : Bool := 49 ≤ c.toNat && c.toNat ≤ 57

/-- `strptime` `%Y`: exactly four decimal digits. -/
def parseYear4 : List Char → Option (Nat × List Char)
  | c1 :: c2 :: c3 :: c4 :: rest =>
    if isDig c1 && isDig c2 && isDig c3 && isDig c4 then
      some (1000 * digitVal c1 + 100 * digitVal c2 + 10 * digitVal c3 + digitVal c4, rest)
    else none
  | _ => none

/-- `strptime` `%m`: the regex alternation `1[0-2]|0[1-9]|[1-9]`, tried in order. -/
def parseMonth2 : List Char → Option (Nat × List Char)
  | [] => none
  | '0' :: rest =>
    match rest with
    | c :: rest2 => if isDig19 c then some (digitVal c, rest2) else none
    | [] => none
  | '1' :: rest =>
    match rest with
    | c :: rest2 =>
      if 48 ≤ c.toNat && c.toNat ≤ 50 then some (10 + digitVal c, rest2)
      else some (1, c :: rest2)
    | [] => some (1, [])
  | c :: rest => if 50 ≤ c.toNat && c.toNat ≤ 57 then some (digitVal c, rest) else none

/-- `strptime` `%d`: the regex alternation `3[01]|[12]\d|0[1-9]|[1-9]`, tried in order. -/
def parseDay2 : List Char → Option (Nat × List Char)
  | [] => none
  | '3' :: rest =>
    match rest with
    | c :: rest2 =>
      if c = '0' ∨ c = '1' then some (30 + digitVal c, rest2) else some (3, c :: rest2)
    | [] => some (3, [])
  | '0' :: rest =>
    match rest with
    | c :: rest2 => if isDig19 c then some (digitVal c, rest2) else none
    | [] => none
  | c :: rest =>
    if c = '1' ∨ c = '2' then
      match rest with
      | c2 :: rest2 =>
        if isDig c2 then some (10 * digitVal c + digitVal c2, rest2)
        else some (digitVal c, c2 :: rest2)
      | [] => some (digitVal c, [])
    else if isDig19 c then some (digitVal c, rest)
    else none

/-- Number of days in a month, with the Gregorian leap-year rule, as enforced by
the `datetime.date` constructor. -/
def daysInMonth (y m : Nat) : Nat :=
  if m = 2 then
    if y % 4 = 0 ∧ (¬y % 100 = 0 ∨ y % 400 = 0) then 29 else 28
  else if m = 4 ∨ m = 6 ∨ m = 9 ∨ m = 11 then 30
  else 31

/-- `datetime.strptime(s, "%Y-%m-%d").date()`: match the whole string against
the format (a `ValueError` — here `none` — if anything is left unconsumed) and
then validate the date (`MINYEAR = 1`; day bounded by the month length). -/
def parseDate (s : String) : Option PyDate :=
  match parseYear4 s.toList with
  | none => none
  | some (y, r1) =>
    match r1 with
    | '-' :: r2 =>
      match parseMonth2 r2 with
      | none => none
      | some (m, r3) =>
        match r3 with
        | '-' :: r4 =>
          match parseDay2 r4 with
          | none => none
          | some (d, r5) =>
            if r5 = [] ∧ 1 ≤ y ∧ d ≤ daysInMonth y m then some ⟨y, m, d⟩ else none
        | _ => none
    | _ => none

/-- Python `str.split(sep)` for a one-character separator. -/
def splitOnChar (sep : Char) : List Char → List (List Char)
  | [] => [[]]
  | c :: rest =>
    let r := splitOnChar sep rest
    if c = sep then [] :: r
    else
      match r with
      | h :: t => (c :: h) :: t
      | [] => [[c]]

/-- Python `s.split(sep)` returning strings. -/
def pySplit (sep : Char) (s : String) : List String :=
  (splitOnChar sep s.toList).map (fun cs => String.mk cs)

/-- `uploaded_file.name.split("_")[0]`: the filename text before the first
underscore (the whole name when there is none). -/
def dateTokenOf (name : String) : String :=
  (pySplit '_' name).headD ""

/-- An uploaded file as the aggregation loop sees it: its name, its content
type string (`uploaded_file.type`), and the text that extraction would yield
(`read().decode("utf-8")` for plain text, `read_docx` — the newline-join of the
paragraph texts — for a Word document). -/
structure UploadedFile where
  name : String
  ftype : String
  text : String
deriving DecidableEq, Repr

/-- The docx MIME string tested by the loop. -/
def docxMime : String :=
  "application/vnd.openxmlformats-officedocument.wordprocessingml.document"

/-- A file has one of the two content types the loop extracts. -/
def supportedType (f : UploadedFile) : Prop :=
  f.ftype = "text/plain" ∨ f.ftype = docxMime

instance (f : UploadedFile) : Decidable (supportedType f) := by
  unfold supportedType; infer_instance

/-- The state the loop threads: the accumulating `combined_content` string,
the current binding of the Python local `file_content` (`none` before its
first assignment), and the warnings issued so far. -/
structure AggState where
  combined : String
  fileContent : Option String
  warnings : List String
deriving DecidableEq, Repr

/-- The warning issued by the `except ValueError` handler. -/
def invalidWarning (name : String) : String :=
  s!"The file {name} does not have a valid date format in the filename. Skipping this file."

/-- The begin marker appended before a file, `i` its 1-based ordinal. -/
def beginMark (i : Nat) (name : String) : String :=
  s!"--- Beginning of content from file {i}: {name} ---\n"

/-- The end marker appended after a file. -/
def endMark (i : Nat) (name : String) : String :=
  s!"--- End of content from file {i}: {name} ---\n\n"

/-- One iteration of the filtering loop, for the `i`-th file (1-based).
Mirrors the Python: parse the date token (a failure is caught and warned);
inside the window, `file_content` is assigned only for the two supported
content types — otherwise it keeps its previous value, and if it was never
assigned the append raises an uncaught `NameError` (modelled as `.error`).
Out-of-window files fall through with no state change at all. -/
def processOne (startD endD : PyDate) (i : Nat) (f : UploadedFile) (st : AggState) :
    Except String AggState :=
  match parseDate (dateTokenOf f.name) with
  | none => .ok { st with warnings := st.warnings ++ [invalidWarning f.name] }
  | some d =>
    if dateLe startD d ∧ dateLe d endD then
      let fc : Option String :=
        if f.ftype = "text/plain" then some f.text
        else if f.ftype = docxMime then some f.text
        else st.fileContent
      match fc with
      | none => .error "NameError: name file_content is not defined"
      | some c =>
        .ok { st with
              combined := st.combined ++ beginMark i f.name ++ (c ++ "\n") ++ endMark i f.name,
              fileContent := some c }
    else .ok st

/-- The filtering loop from index `i` onward. -/
def aggregateFrom (startD endD : PyDate) : Nat → AggState → List UploadedFile →
    Except String AggState
  | _, st, [] => .ok st
  | i, st, f :: rest =>
    match processOne startD endD i f st with
    | .error e => .error e
    | .ok st2 => aggregateFrom startD endD (i + 1) st2 rest

/-- The whole `for i, uploaded_file in enumerate(uploaded_files, start=1)` loop,
starting from empty `combined_content` and an unbound `file_content`. -/
def aggregate (startD endD : PyDate) (files : List UploadedFile) : Except String AggState :=
  aggregateFrom startD endD 1 ⟨"", none, []⟩ files

/-! ## Report pipeline driver -/

/-- One agent prompt record: the three identity fields. -/
structure RoleCfg where
  role : String
  goal : String
  backstory : String
deriving DecidableEq, Repr

/-- The task description strings. -/
structure TaskCfg where
  plan : String
  write : String
  edit : String
deriving DecidableEq, Repr

/-- `st.session_state["prompts"]`: the planner/writer/editor records plus the
task descriptions. -/
structure PromptSet where
  planner : RoleCfg
  writer : RoleCfg
  editor : RoleCfg
  tasks : TaskCfg
deriving DecidableEq, Repr

/-- One submission to the generation collaborator: the agent identity given to
`Agent(...)`, the task description given to `Task(...)`, and the API key when
one is passed to the agent (only the planner receives it). -/
structure StageCall where
  role : String
  goal : String
  backstory : String
  descr : String
  apiKey : Option String
deriving DecidableEq, Repr

/-- The plan-stage call: every identity field and the description come from the
prompt set; `openai_api_key` is passed through. -/
def plannerCall (p : PromptSet) (key : String) : StageCall :=
  { role := p.planner.role
    goal := p.planner.goal
    backstory := p.planner.backstory
    descr := p.tasks.plan
    apiKey := some key }

/-- The write-stage call: `role` and `goal` are hard-coded literals in the
source; only `backstory` and the task description come from the prompt set, and
no API key is passed to this agent. -/
def writerCall (p : PromptSet) : StageCall :=
  { role := "Content Writer"
    goal := "Write a cohesive research article based on organized sections."
    backstory := p.writer.backstory
    descr := p.tasks.write
    apiKey := none }

/-- What one run of the script performs after aggregation: the collaborator
calls made (in order) and whether the no-eligible-content warning was shown. -/
structure FlowResult where
  calls : List StageCall
  warnedNoContent : Bool
deriving DecidableEq, Repr

/-- The generation path of the script: aggregate the files; when
`combined_content` is truthy (non-empty) run the planner crew then the writer
crew — with no check of the API key — otherwise show the warning and call
nothing. An uncaught aggregation fault aborts the run. -/
def runScript (p : PromptSet) (key : String) (startD endD : PyDate)
    (files : List UploadedFile) : Except String FlowResult :=
  match aggregate startD endD files with
  | .error e => .error e
  | .ok st =>
    if st.combined ≠ "" then
      .ok { calls := [plannerCall p key, writerCall p], warnedNoContent := false }
    else
      .ok { calls := [], warnedNoContent := true }

/-! ## Configuration store -/

/-- A JSON-like configuration value as stored in `agent_task_config.json`
(string leaves and ordered objects suffice for the prompt configuration). -/
inductive ConfigVal where
  | str : String → ConfigVal
  | obj : List (String × ConfigVal) → ConfigVal

/-- `load_config`: the stored value, or the empty object `{}` when the file is
missing (`FileNotFoundError`). The storage models the file contents at the
value level; the external `json` library round-trips these values faithfully. -/
def load_config (storage : Option ConfigVal) : ConfigVal :=
  match storage with
  | none => ConfigVal.obj []
  | some v => v

/-- `save_config`: overwrite the stored file with the given value. -/
def save_config (c : ConfigVal) : Option ConfigVal :=
  some c

/-! ## Report formatter -/

/-- Python `line.strip("*")`: drop asterisks from both ends of the line. -/
def stripStars (l : String) : String :=
  String.mk (((l.toList.dropWhile (fun c => c == '*')).reverse.dropWhile
    (fun c => c == '*')).reverse)

/-- Whether `pat` occurs at the start of `l`. -/
def startsWithChars : List Char → List Char → Bool
  | [], _ => true
  | _ :: _, [] => false
  | p :: ps, c :: cs => p == c && startsWithChars ps cs

/-- Whether `pat` occurs anywhere inside `l` (substring containment). -/
def containsSub (pat : List Char) : List Char → Bool
  | [] => startsWithChars pat []
  | c :: cs => startsWithChars pat (c :: cs) || containsSub pat cs

/-- The five fixed section keywords of the subheading-highlight formatter. -/
def sectionKeywords : List String :=
  ["Introduction", "Core Insights", "Challenges", "Opportunities", "Conclusion"]

/-- Modelled from the spec: the line-by-line subheading-highlight formatter
variant is not present in `src/ArticleGenerator1.py` (the code there styles
every line identically and never uses the imported `RGBColor`); per the spec,
a line containing one of the five fixed section keywords as a substring is
additionally colored navy-blue — a plain substring containment test. -/
def hasSectionKeyword (l : String) : Bool :=
  sectionKeywords.any fun k => containsSub k.toList l.toList

/-- One rendered body paragraph: its text and whether the (spec-modelled)
navy-blue subheading emphasis applies to it. -/
structure DocPara where
  text : String
  navyColor : Bool
deriving DecidableEq, Repr

/-- The rendered document: the fixed title paragraph plus one body paragraph
per line of the report. -/
structure RenderedDoc where
  title : String
  body : List DocPara
deriving DecidableEq, Repr

/-- The document-generation loop: add the fixed title, then for each line of
`final_report.split("\n")` strip asterisks from the line ends and add it as a
paragraph; the navy flag follows the spec-modelled `hasSectionKeyword`. -/
def renderDoc (finalReport : String) : RenderedDoc :=
  { title := "Industry Insights Report"
    body := (pySplit '\n' finalReport).map fun line =>
      let cleanLine := stripStars line
      { text := cleanLine, navyColor := hasSectionKeyword cleanLine } }

/-! ## Characterization of the aggregation loop -/

/-- A file is eligible for inclusion: its date token parses and the parsed
date lies in the inclusive window. -/
def eligibleB (startD endD : PyDate) (f : UploadedFile) : Bool :=
  match parseDate (dateTokenOf f.name) with
  | some d => decide (dateLe startD d) && decide (dateLe d endD)
  | none => false

/-- The labeled block the loop appends for the `i`-th file. -/
def blockOf (i : Nat) (f : UploadedFile) : String :=
  beginMark i f.name ++ (f.text ++ "\n") ++ endMark i f.name

/-- Concatenation of a list of strings in order. -/
def concatAll : List String → String
  | [] => ""
  | a :: rest => a ++ concatAll rest

/-- The in-window files with their 1-based ordinals, in upload order. -/
def includedWithIdx (startD endD : PyDate) (files : List UploadedFile) :
    List (Nat × UploadedFile) :=
  (List.enumFrom 1 files).filter fun p => eligibleB startD endD p.2

/-- On supported content types the loop never faults, and `combined_content`
grows by exactly the blocks of the eligible files, in list order. -/
theorem aggregateFrom_ok_combined (s e : PyDate) (files : List UploadedFile) :
    ∀ (i : Nat) (st : AggState),
      (∀ f ∈ files, supportedType f) →
      ∃ st2, aggregateFrom s e i st files = .ok st2 ∧
        st2.combined = st.combined ++
          concatAll (((List.enumFrom i files).filter fun p => eligibleB s e p.2).map
            fun p => blockOf p.1 p.2) := by
  induction files with
  | nil =>
    intro i st _
    exact ⟨st, rfl, by simp [List.enumFrom, concatAll, String.append_empty]⟩
  | cons f rest ih =>
    intro i st hsup
    have hf : supportedType f := hsup f (List.mem_cons_self f rest)
    have hrest : ∀ g ∈ rest, supportedType g := fun g hg => hsup g (List.mem_cons_of_mem f hg)
    rcases hp : parseDate (dateTokenOf f.name) with _ | d
    · have hproc : processOne s e i f st =
          .ok { st with warnings := st.warnings ++ [invalidWarning f.name] } := by
        unfold processOne; rw [hp]
      obtain ⟨st2, h1, h2⟩ :=
        ih (i + 1) { st with warnings := st.warnings ++ [invalidWarning f.name] } hrest
      refine ⟨st2, ?_, ?_⟩
      · show aggregateFrom s e i st (f :: rest) = .ok st2
        unfold aggregateFrom
        rw [hproc]
        exact h1
      · rw [h2]
        have he : eligibleB s e f = false := by unfold eligibleB; rw [hp]
        simp [List.enumFrom_cons, List.filter_cons, he]
    · by_cases hin : dateLe s d ∧ dateLe d e
      · have hproc : processOne s e i f st =
            .ok { st with
                  combined := st.combined ++ beginMark i f.name ++ (f.text ++ "\n") ++
                    endMark i f.name,
                  fileContent := some f.text } := by
          simp only [processOne, hp]
          rw [if_pos hin]
          rcases hf with h1 | h1
          · simp [h1]
          · by_cases h0 : f.ftype = "text/plain"
            · simp [h0]
            · simp [h0, h1]
        obtain ⟨st2, h1, h2⟩ := ih (i + 1)
          { st with
            combined := st.combined ++ beginMark i f.name ++ (f.text ++ "\n") ++
              endMark i f.name,
            fileContent := some f.text } hrest
        refine ⟨st2, ?_, ?_⟩
        · show aggregateFrom s e i st (f :: rest) = .ok st2
          unfold aggregateFrom
          rw [hproc]
          exact h1
        · rw [h2]
          have he : eligibleB s e f = true := by
            simp only [eligibleB, hp, ← Bool.decide_and]
            exact decide_eq_true hin
          simp only [List.enumFrom_cons, List.filter_cons, he, if_true, List.map_cons, concatAll]
          unfold blockOf
          simp [String.append_assoc]
      · have hproc : processOne s e i f st = .ok st := by
          simp only [processOne, hp]
          rw [if_neg hin]
        obtain ⟨st2, h1, h2⟩ := ih (i + 1) st hrest
        refine ⟨st2, ?_, ?_⟩
        · show aggregateFrom s e i st (f :: rest) = .ok st2
          unfold aggregateFrom
          rw [hproc]
          exact h1
        · rw [h2]
          have he : eligibleB s e f = false := by
            simp only [eligibleB, hp, ← Bool.decide_and]
            exact decide_eq_false hin
          simp [List.enumFrom_cons, List.filter_cons, he]

/-- Whole-loop corollary: starting from the empty state. -/
theorem aggregate_ok_combined (s e : PyDate) (files : List UploadedFile)
    (hsup : ∀ f ∈ files, supportedType f) :
    ∃ st, aggregate s e files = .ok st ∧
      st.combined = concatAll ((includedWithIdx s e files).map fun p => blockOf p.1 p.2) := by
  obtain ⟨st, h1, h2⟩ := aggregateFrom_ok_combined s e files 1 ⟨"", none, []⟩ hsup
  refine ⟨st, h1, ?_⟩
  rw [h2]
  exact String.empty_append _

/-! ## Sample data used by witnesses and counterexamples -/

/-- A file dated exactly at the window start. -/
def wFileA : UploadedFile := ⟨"2023-01-01_a.txt", "text/plain", "Alpha"⟩

/-- A file dated after the window end. -/
def wFileB : UploadedFile := ⟨"2023-03-15_b.txt", "text/plain", "Beta"⟩

/-- The later-dated file of the upload-order example, uploaded first. -/
def exFileB : UploadedFile := ⟨"2023-02-01_b.txt", "text/plain", "Bravo"⟩

/-- The earlier-dated file of the upload-order example, uploaded second. -/
def exFileA : UploadedFile := ⟨"2023-01-01_a.txt", "text/plain", "Alfa"⟩

/-- An in-window file whose content type is neither plain text nor docx. -/
def wFileU : UploadedFile := ⟨"2023-06-15_scan.pdf", "application/octet-stream", "IGNORED"⟩

/-- An in-window plain-text file. -/
def inRangeFile : UploadedFile := ⟨"2023-06-15_transcript.txt", "text/plain", "Body"⟩

/-- A prompt configuration in which the user has edited the writer identity. -/
def samplePrompts : PromptSet :=
  { planner := ⟨"Content Planner", "Plan engaging content", "Planner backstory"⟩
    writer := ⟨"Custom Writer Role", "Custom Writer Goal", "Writer backstory"⟩
    editor := ⟨"Editor", "Edit a given blog post", "Editor backstory"⟩
    tasks := ⟨"Plan the content", "Write the article", "Edit the article"⟩ }

/-! ## Claim theorems -/

/-- C1: for files of the two supported content types, the aggregation loop
succeeds and `combined_content` is exactly the concatenation, in order, of the
blocks of those files whose parsed filename date lies in `[start, end]`
inclusive (the `eligibleB` test); dates equal to either boundary pass the
test, and an inverted window (`start > end`) admits no file at all, with no
explicit rejection — the loop simply yields an empty `combined_content`. -/
theorem aggregator_includes_iff_in_window (startD endD : PyDate)
    (files : List UploadedFile) (hsup : ∀ f ∈ files, supportedType f) :
    ∃ st, aggregate startD endD files = .ok st ∧
      st.combined = concatAll
        (((List.enumFrom 1 files).filter fun p => eligibleB startD endD p.2).map
          fun p => blockOf p.1 p.2) ∧
      (∀ f d, parseDate (dateTokenOf f.name) = some d → (d = startD ∨ d = endD) →
        dateLe startD endD → eligibleB startD endD f = true) ∧
      (¬dateLe startD endD → st.combined = "") := by
  obtain ⟨st, h1, h2⟩ := aggregate_ok_combined startD endD files hsup
  refine ⟨st, h1, h2, ?_, ?_⟩
  · intro f d hp hde hse
    simp only [eligibleB, hp, ← Bool.decide_and]
    refine decide_eq_true ?_
    rcases hde with h | h
    · subst h; exact ⟨dateLe_refl d, hse⟩
    · subst h; exact ⟨hse, dateLe_refl d⟩
  · intro hne
    have hfalse : ∀ g : UploadedFile, eligibleB startD endD g = false := by
      intro g
      unfold eligibleB
      cases hp : parseDate (dateTokenOf g.name) with
      | none => rfl
      | some d =>
        simp only [← Bool.decide_and]
        refine decide_eq_false ?_
        rintro ⟨ha, hb⟩
        exact hne (dateLe_trans ha hb)
    have hnil : (List.enumFrom 1 files).filter (fun p => eligibleB startD endD p.2) = [] :=
      List.filter_eq_nil_iff.2 fun a _ => by simp [hfalse a.2]
    rw [h2]
    unfold includedWithIdx
    rw [hnil]
    rfl

/-- Witness for C1 at a concrete input: both files are supported; the first is
dated exactly at the window start (included), the second past the end
(excluded). -/
theorem aggregator_includes_iff_in_window_witness :
    (∀ f ∈ [wFileA, wFileB], supportedType f) ∧
    (∃ st, aggregate ⟨2023, 1, 1⟩ ⟨2023, 2, 1⟩ [wFileA, wFileB] = .ok st ∧
      st.combined = concatAll
        (((List.enumFrom 1 [wFileA, wFileB]).filter
            fun p => eligibleB ⟨2023, 1, 1⟩ ⟨2023, 2, 1⟩ p.2).map
          fun p => blockOf p.1 p.2) ∧
      (∀ f d, parseDate (dateTokenOf f.name) = some d →
        (d = ⟨2023, 1, 1⟩ ∨ d = ⟨2023, 2, 1⟩) →
        dateLe ⟨2023, 1, 1⟩ ⟨2023, 2, 1⟩ → eligibleB ⟨2023, 1, 1⟩ ⟨2023, 2, 1⟩ f = true) ∧
      (¬dateLe ⟨2023, 1, 1⟩ ⟨2023, 2, 1⟩ → st.combined = "")) :=
  ⟨by decide,
   aggregator_includes_iff_in_window ⟨2023, 1, 1⟩ ⟨2023, 2, 1⟩ [wFileA, wFileB] (by decide)⟩

/-- C2 counterexample: a file whose date token parses but lies before the
window start is processed with no warning and no record of any kind — the
final state is exactly the untouched initial state, contradicting the claim
that such a file is recorded as skipped and surfaced to the user. -/
theorem out_of_range_file_no_warning_cx :
    parseDate (dateTokenOf "2023-01-05_interview.txt") = some ⟨2023, 1, 5⟩ ∧
    ¬dateLe ⟨2023, 1, 10⟩ ⟨2023, 1, 5⟩ ∧
    aggregate ⟨2023, 1, 10⟩ ⟨2023, 1, 20⟩
        [⟨"2023-01-05_interview.txt", "text/plain", "T"⟩] =
      .ok ⟨"", none, []⟩ :=
  ⟨rfl, by decide, rfl⟩

/-- C2 amended: a file whose filename date parses but falls outside the window
is silently dropped — the loop iteration returns the state completely
unchanged, issuing no warning and recording nothing (only invalid-date
filenames produce a warning). -/
theorem out_of_range_file_silently_skipped (startD endD : PyDate) (i : Nat)
    (f : UploadedFile) (st : AggState) (d : PyDate)
    (hp : parseDate (dateTokenOf f.name) = some d)
    (hout : ¬(dateLe startD d ∧ dateLe d endD)) :
    processOne startD endD i f st = .ok st := by
  simp only [processOne, hp]
  rw [if_neg hout]

/-- Witness for the amended C2 at a concrete out-of-window file. -/
theorem out_of_range_file_silently_skipped_witness :
    processOne ⟨2023, 1, 10⟩ ⟨2023, 1, 20⟩ 1
      ⟨"2023-01-05_interview.txt", "text/plain", "T"⟩ ⟨"", none, []⟩ = .ok ⟨"", none, []⟩ :=
  out_of_range_file_silently_skipped ⟨2023, 1, 10⟩ ⟨2023, 1, 20⟩ 1
    ⟨"2023-01-05_interview.txt", "text/plain", "T"⟩ ⟨"", none, []⟩ ⟨2023, 1, 5⟩ rfl (by decide)

/-- C3: when the filename date token fails to parse, the iteration returns
normally (no fault) with the file excluded — `combined_content` untouched —
and exactly one skip warning appended; the loop then continues with the
remaining files. -/
theorem invalid_date_warns_and_continues (startD endD : PyDate) (i : Nat)
    (f : UploadedFile) (st : AggState)
    (hp : parseDate (dateTokenOf f.name) = none) :
    processOne startD endD i f st =
      .ok { st with warnings := st.warnings ++ [invalidWarning f.name] } ∧
    ∀ rest, aggregateFrom startD endD i st (f :: rest) =
      aggregateFrom startD endD (i + 1)
        { st with warnings := st.warnings ++ [invalidWarning f.name] } rest := by
  have hproc : processOne startD endD i f st =
      .ok { st with warnings := st.warnings ++ [invalidWarning f.name] } := by
    simp only [processOne, hp]
  refine ⟨hproc, fun rest => ?_⟩
  simp only [aggregateFrom, hproc]

/-- Witness for C3: a file with no parseable date prefix is warned about and
the loop proceeds to the next file. -/
theorem invalid_date_warns_and_continues_witness :
    processOne ⟨2023, 1, 1⟩ ⟨2023, 12, 31⟩ 1 ⟨"garbled.txt", "text/plain", "X"⟩
        ⟨"", none, []⟩ =
      .ok ⟨"", none, [invalidWarning "garbled.txt"]⟩ ∧
    aggregateFrom ⟨2023, 1, 1⟩ ⟨2023, 12, 31⟩ 1 ⟨"", none, []⟩
        [⟨"garbled.txt", "text/plain", "X"⟩, wFileA] =
      aggregateFrom ⟨2023, 1, 1⟩ ⟨2023, 12, 31⟩ 2
        ⟨"", none, [invalidWarning "garbled.txt"]⟩ [wFileA] :=
  ⟨(invalid_date_warns_and_continues ⟨2023, 1, 1⟩ ⟨2023, 12, 31⟩ 1
      ⟨"garbled.txt", "text/plain", "X"⟩ ⟨"", none, []⟩ rfl).1,
   (invalid_date_warns_and_continues ⟨2023, 1, 1⟩ ⟨2023, 12, 31⟩ 1
      ⟨"garbled.txt", "text/plain", "X"⟩ ⟨"", none, []⟩ rfl).2 [wFileA]⟩

/-- The example report text of the formatter test property. -/
def exampleReport : String := "Introduction\nSome body *text*\nConclusion"

/-- C4 counterexample: on the example text the second rendered line is
`"Some body *text"` — `strip("*")` removes asterisks only at the ends of the
whole line, so the asterisk opening `*text*`, being interior to the line,
survives, contradicting the claim that both asterisks around `text` are
stripped. Title, paragraph count, and the (spec-modelled) navy coloring of
paragraphs 1 and 3 are as claimed. -/
theorem formatter_example_asterisk_cx :
    renderDoc "Introduction\nSome body *text*\nConclusion" =
      { title := "Industry Insights Report"
        body := [⟨"Introduction", true⟩, ⟨"Some body *text", false⟩,
                 ⟨"Conclusion", true⟩] } ∧
    "Some body *text" ≠ "Some body text" :=
  ⟨rfl, by decide⟩

/-- C4 amended: the formatter yields the fixed title paragraph plus three body
paragraphs; the trailing asterisk of the second line is stripped while the
interior one before `text` remains; the navy heading-emphasis flag (modelled
from the spec) holds for the first and third body paragraphs only. -/
theorem formatter_example_rendering :
    (renderDoc exampleReport).title = "Industry Insights Report" ∧
    (renderDoc exampleReport).body.length = 3 ∧
    (renderDoc exampleReport).body.map DocPara.text =
      ["Introduction", "Some body *text", "Conclusion"] ∧
    (renderDoc exampleReport).body.map DocPara.navyColor = [true, false, true] :=
  ⟨rfl, rfl, rfl, rfl⟩

/-- C5 counterexample: with the writer identity edited in the prompt set, the
write stage still submits the hard-coded role and goal literals: neither edit
reaches the generation collaborator. -/
theorem writer_identity_hardcoded_cx :
    samplePrompts.writer.role = "Custom Writer Role" ∧
    samplePrompts.writer.goal = "Custom Writer Goal" ∧
    (writerCall samplePrompts).role = "Content Writer" ∧
    (writerCall samplePrompts).role ≠ samplePrompts.writer.role ∧
    (writerCall samplePrompts).goal ≠ samplePrompts.writer.goal :=
  ⟨rfl, rfl, rfl, by decide, by decide⟩

/-- C5 amended: the write stage submits a hard-coded role and goal; only the
backstory and the write-task description are drawn from the configuration, so
user edits to those two fields are reflected while role and goal edits are
not; no API key is passed to the writer agent. -/
theorem writer_identity_sources (p : PromptSet) :
    (writerCall p).role = "Content Writer" ∧
    (writerCall p).goal = "Write a cohesive research article based on organized sections." ∧
    (writerCall p).backstory = p.writer.backstory ∧
    (writerCall p).descr = p.tasks.write ∧
    (writerCall p).apiKey = none :=
  ⟨rfl, rfl, rfl, rfl, rfl⟩

/-- C6 counterexample: with an empty API key and one eligible upload the
script performs the full pipeline — both collaborator calls are made and the
empty key is passed straight to the planner agent; nothing rejects the
request. -/
theorem empty_api_key_still_runs_cx :
    runScript samplePrompts "" ⟨2023, 1, 1⟩ ⟨2023, 12, 31⟩ [inRangeFile] =
      .ok { calls := [plannerCall samplePrompts "", writerCall samplePrompts],
            warnedNoContent := false } ∧
    (plannerCall samplePrompts "").apiKey = some "" ∧
    [plannerCall samplePrompts "", writerCall samplePrompts] ≠ ([] : List StageCall) :=
  ⟨rfl, rfl, by decide⟩

/-- C6 amended: with no uploaded files the script makes no collaborator call
and shows the no-eligible-content warning; the API key, however, is never
validated — with an eligible upload the pipeline runs even when the key is the
empty string, passing it through to the planner call. -/
theorem missing_uploads_guard_no_key_check (p : PromptSet) (key : String)
    (startD endD : PyDate) :
    runScript p key startD endD [] = .ok { calls := [], warnedNoContent := true } ∧
    runScript p "" ⟨2023, 1, 1⟩ ⟨2023, 12, 31⟩ [inRangeFile] =
      .ok { calls := [plannerCall p "", writerCall p], warnedNoContent := false } :=
  ⟨rfl, rfl⟩

/-- C7: whenever aggregation succeeds with an empty `combined_content`, the
script makes no collaborator call at all and shows the no-eligible-content
warning instead. -/
theorem empty_content_no_collaborator_calls (p : PromptSet) (key : String)
    (startD endD : PyDate) (files : List UploadedFile) (st : AggState)
    (hagg : aggregate startD endD files = .ok st) (hempty : st.combined = "") :
    runScript p key startD endD files = .ok { calls := [], warnedNoContent := true } := by
  unfold runScript
  rw [hagg]
  simp [hempty]

/-- Witness for C7: an out-of-window upload leaves `combined_content` empty
and the run warns without calling the collaborator. -/
theorem empty_content_no_collaborator_calls_witness :
    runScript samplePrompts "sk-key" ⟨2023, 1, 10⟩ ⟨2023, 1, 20⟩
        [⟨"2023-01-05_interview.txt", "text/plain", "T"⟩] =
      .ok { calls := [], warnedNoContent := true } :=
  empty_content_no_collaborator_calls samplePrompts "sk-key" ⟨2023, 1, 10⟩ ⟨2023, 1, 20⟩
    [⟨"2023-01-05_interview.txt", "text/plain", "T"⟩] ⟨"", none, []⟩ rfl rfl

/-- C8: for supported files, `combined_content` is the concatenation of the
blocks of the in-window files taken in upload order — the included files (with
their ordinals) form a sublist of the uploads, so block order equals upload
order, independent of the parsed dates. -/
theorem blocks_follow_upload_order (startD endD : PyDate)
    (files : List UploadedFile) (hsup : ∀ f ∈ files, supportedType f) :
    ∃ st, aggregate startD endD files = .ok st ∧
      st.combined =
        concatAll ((includedWithIdx startD endD files).map fun p => blockOf p.1 p.2) ∧
      List.Sublist ((includedWithIdx startD endD files).map Prod.snd) files := by
  obtain ⟨st, h1, h2⟩ := aggregate_ok_combined startD endD files hsup
  refine ⟨st, h1, h2, ?_⟩
  have h3 : List.Sublist (includedWithIdx startD endD files) (List.enumFrom 1 files) :=
    List.filter_sublist _
  have h4 := h3.map Prod.snd
  rwa [List.enumFrom_map_snd] at h4

/-- Witness for C8 at the spec's example: the later-dated file `exFileB` is
uploaded first and both files are in window, so its block comes first. -/
theorem blocks_follow_upload_order_witness :
    (∀ f ∈ [exFileB, exFileA], supportedType f) ∧
    (∃ st, aggregate ⟨2023, 1, 1⟩ ⟨2023, 12, 31⟩ [exFileB, exFileA] = .ok st ∧
      st.combined = concatAll
        ((includedWithIdx ⟨2023, 1, 1⟩ ⟨2023, 12, 31⟩ [exFileB, exFileA]).map
          fun p => blockOf p.1 p.2) ∧
      List.Sublist
        ((includedWithIdx ⟨2023, 1, 1⟩ ⟨2023, 12, 31⟩ [exFileB, exFileA]).map Prod.snd)
        [exFileB, exFileA]) :=
  ⟨by decide,
   blocks_follow_upload_order ⟨2023, 1, 1⟩ ⟨2023, 12, 31⟩ [exFileB, exFileA] (by decide)⟩

/-- C9: for any present persisted configuration, saving right after loading
writes back exactly the original stored value, and a second load returns the
same configuration. -/
theorem config_roundtrip_idempotent (s : Option ConfigVal) (c : ConfigVal)
    (h : s = some c) :
    save_config (load_config s) = s ∧
    load_config (save_config (load_config s)) = load_config s := by
  subst h
  exact ⟨rfl, rfl⟩

/-- Witness for C9 at a concrete stored configuration object. -/
theorem config_roundtrip_idempotent_witness :
    save_config (load_config (some (ConfigVal.obj
        [("planner", ConfigVal.str "Content Planner")]))) =
      some (ConfigVal.obj [("planner", ConfigVal.str "Content Planner")]) ∧
    load_config (save_config (load_config (some (ConfigVal.obj
        [("planner", ConfigVal.str "Content Planner")])))) =
      load_config (some (ConfigVal.obj [("planner", ConfigVal.str "Content Planner")])) :=
  config_roundtrip_idempotent _ _ rfl

/-- C10: for an in-window file whose content type is neither plain text nor
docx, `file_content` is never assigned on that iteration: if it is still
unbound the append raises the uncaught `NameError`, and if a previous file
bound it, that stale text is appended again under the new file's markers. -/
theorem unsupported_type_file_content_bug (startD endD : PyDate) (i : Nat)
    (f : UploadedFile) (st : AggState) (d : PyDate)
    (hp : parseDate (dateTokenOf f.name) = some d)
    (hin : dateLe startD d ∧ dateLe d endD)
    (ht : f.ftype ≠ "text/plain") (hd : f.ftype ≠ docxMime) :
    (st.fileContent = none →
      processOne startD endD i f st =
        .error "NameError: name file_content is not defined") ∧
    (∀ c, st.fileContent = some c →
      processOne startD endD i f st =
        .ok { st with
              combined := st.combined ++ beginMark i f.name ++ (c ++ "\n") ++
                endMark i f.name,
              fileContent := some c }) := by
  constructor
  · intro hnone
    simp only [processOne, hp]
    rw [if_pos hin]
    simp [ht, hd, hnone]
  · intro c hc
    simp only [processOne, hp]
    rw [if_pos hin]
    simp [ht, hd, hc]

/-- Witness for C10: the PDF-typed in-window file faults when it is the first
eligible file, and re-appends the previous file's text when one was already
extracted. -/
theorem unsupported_type_file_content_bug_witness :
    processOne ⟨2023, 1, 1⟩ ⟨2023, 12, 31⟩ 1 wFileU ⟨"", none, []⟩ =
      .error "NameError: name file_content is not defined" ∧
    processOne ⟨2023, 1, 1⟩ ⟨2023, 12, 31⟩ 2 wFileU ⟨"PREV", some "OldText", []⟩ =
      .ok ⟨"PREV" ++ beginMark 2 wFileU.name ++ ("OldText" ++ "\n") ++ endMark 2 wFileU.name,
           some "OldText", []⟩ :=
  ⟨(unsupported_type_file_content_bug ⟨2023, 1, 1⟩ ⟨2023, 12, 31⟩ 1 wFileU
      ⟨"", none, []⟩ ⟨2023, 6, 15⟩ rfl (by decide) (by decide) (by decide)).1 rfl,
   (unsupported_type_file_content_bug ⟨2023, 1, 1⟩ ⟨2023, 12, 31⟩ 2 wFileU
      ⟨"PREV", some "OldText", []⟩ ⟨2023, 6, 15⟩ rfl (by decide) (by decide)
      (by decide)).2 "OldText" rfl⟩

end ArticleGen
